import Mathlib

/-!
Verification of the Masker.js validation/masking engine (classes
`MaskerValidator` and `Masker`, file `src/unnamed/part_000`).

The JavaScript source is shallowly embedded: a DOM input element is the
`Field` structure below (holding the attributes and properties the engine
reads), the document is a list of fields in document order, and each
static method of the source becomes a Lean function of the same name.
JavaScript strings are Lean `String`s, numbers coming out of `parseInt`
are `Int` (`NaN` is `none`), and a thrown `TypeError` is `Except.error ()`.
-/

set_option maxRecDepth 10000

namespace MaskerJS

/-- ASCII whitespace, as recognized by JS `String.prototype.trim`, `\s`
and `parseInt` on the character ranges that occur in this development. -/
def jsWs (c : Char) : Bool :=
  c = ' ' || c = '\t' || c = '\n' || c = '\r' || c = '\x0b' || c = '\x0c'

/-- JS `String.prototype.trim`. -/
def jsTrim (s : String) : String :=
  String.mk (((s.toList.dropWhile jsWs).reverse.dropWhile jsWs).reverse)

/-- Does the first list occur at the very start of the second? -/
def leadsList : List Char → List Char → Bool
  | [], _ => true
  | _ :: _, [] => false
  | n :: ns, h :: hs => n = h && leadsList ns hs

/-- Does the first list occur contiguously anywhere inside the second? -/
def includesList (needle : List Char) : List Char → Bool
  | [] => leadsList needle []
  | h :: t => leadsList needle (h :: t) || includesList needle t

/-- JS `haystack.includes(needle)`: substring containment. -/
def includes (haystack needle : String) : Bool :=
  includesList needle.toList haystack.toList

/-- JS `a || d` for `a` a string attribute value (`getAttribute` result,
`none` = attribute absent = `null`): the empty string and `null` are
falsy, so they fall through to the default. -/
def jsOrStr (a : Option String) (d : String) : String :=
  match a with
  | some s => if s = "" then d else s
  | none => d

/-- JS `a || d` where `a` is a plain string property (e.g. `el.title`,
which is `""` when absent). -/
def jsOrProp (a d : String) : String :=
  if a = "" then d else a

/-- An attribute value viewed through JS truthiness: `none` for `null`
or `""`. -/
def jsTruthyAttr (a : Option String) : Option String :=
  match a with
  | some s => if s = "" then none else some s
  | none => none

/-- Numeric value of a nonempty list of decimal digit characters. -/
def digitsToNat (ds : List Char) : Nat :=
  ds.foldl (fun acc c => acc * 10 + (c.toNat - 48)) 0

/-- The leading decimal-digit run of a character list, as a number;
`none` when there is no leading digit. -/
def leadingNat (cs : List Char) : Option Nat :=
  let ds := cs.takeWhile Char.isDigit
  if ds = [] then none else some (digitsToNat ds)

/-- JS `parseInt(s, 10)` on a character list: skip leading whitespace,
optional sign, then the longest leading digit run; `NaN` (here `none`)
when no digit follows. -/
def parseInt10L (l : List Char) : Option Int :=
  let cs := l.dropWhile jsWs
  match cs with
  | '-' :: rest => (leadingNat rest).map (fun n => -(n : Int))
  | '+' :: rest => (leadingNat rest).map (fun n => (n : Int))
  | _ => (leadingNat cs).map (fun n => (n : Int))

/-- JS `parseInt(s, 10)`. -/
def parseInt10 (s : String) : Option Int :=
  parseInt10L s.toList

/-- JS `s.split(sep)` for a single-character separator: the runs
between occurrences of `sep`, empties kept (`"".split(':') = [""]`). -/
def splitOnChar (sep : Char) (cs : List Char) : List (List Char) :=
  cs.foldr
    (fun c acc =>
      if c = sep then [] :: acc
      else
        match acc with
        | [] => [[c]]
        | r :: rs => (c :: r) :: rs)
    [[]]

/-- JS `s.startsWith(p)`. -/
def startsWithStr (s p : String) : Bool :=
  leadsList p.toList s.toList

/-- JS `s.padStart(2, '0')`. -/
def padStart2 (s : String) : String :=
  if s.length ≥ 2 then s else String.mk (List.replicate (2 - s.length) '0' ++ s.toList)

/-- The maximal runs of decimal digits of a character list: the JS idiom
`v.split(/[^0-9]+/).filter(x => x)` keeps exactly these runs, in order. -/
def digitRuns (cs : List Char) : List (List Char) :=
  (cs.foldr
    (fun c acc =>
      if c.isDigit then
        match acc with
        | [] => [[c]]
        | r :: rs => (c :: r) :: rs
      else [] :: acc)
    []).filter (fun r => r ≠ [])

/-- A DOM input element, restricted to the attributes and properties the
validation engine reads.  `Option String` fields are `getAttribute`
results (`none` = attribute absent); `title` is the string DOM property
(`""` when absent); `minutesSelectValue` is the current value of the
legacy minutes `select` found by
`el.closest('td, .ms-dtinput')?.querySelector('select[id*="Minutes"]')`,
when such a control exists. -/
structure Field where
  value : String
  placeholder : String
  maskerAttr : String
  hasRequiredAttr : Bool
  isSelect : Bool
  isTimeInput : Bool
  dataFormat : Option String
  dataPair : Option String
  dataErrMsg : Option String
  dataErrMsgRange : Option String
  dataErrMsgRangeStart : Option String
  dataMaxDaysOut : Option String
  dataMaxDaysErrMsg : Option String
  title : String
  minutesSelectValue : Option String
  deriving Repr, DecidableEq

/-- A field with every attribute absent, used as the base for concrete
test fields. -/
def blankField : Field :=
  { value := "", placeholder := "", maskerAttr := "", hasRequiredAttr := false,
    isSelect := false, isTimeInput := false, dataFormat := none, dataPair := none,
    dataErrMsg := none, dataErrMsgRange := none, dataErrMsgRangeStart := none,
    dataMaxDaysOut := none, dataMaxDaysErrMsg := none, title := "",
    minutesSelectValue := none }

/-- The leap-year test exactly as the source computes it:
`(y % 4 === 0 && y % 100 !== 0) || (y % 400 === 0)`, with JS `%`
(truncated remainder, `Int.tmod`). -/
def isLeapJS (y : Int) : Bool :=
  (Int.tmod y 4 = 0 && Int.tmod y 100 ≠ 0) || Int.tmod y 400 = 0

/-- Number of leap years in `[0, y)` (proleptic Gregorian; year 0 is leap). -/
def leapCount (y : Nat) : Nat :=
  (y + 3) / 4 - (y + 99) / 100 + (y + 399) / 400

/-- Days from 1 January to the first day of month `m` (1-based), in a
year whose leap status is `lp`. -/
def daysBeforeMonth (lp : Bool) (m : Nat) : Nat :=
  (match m with
   | 1 => 0 | 2 => 31 | 3 => 59 | 4 => 90 | 5 => 120 | 6 => 151 | 7 => 181
   | 8 => 212 | 9 => 243 | 10 => 273 | 11 => 304 | 12 => 334 | _ => 0)
  + (if lp && m ≥ 3 then 1 else 0)

/-- The (midnight) timeline position of the JS value `new Date(y, m-1, d)`,
measured in days from 1 January of year 0.  JS `MakeDay` places the value
`d-1` days after the first of month `m`, so day overflow (e.g. February 31)
rolls into the following month exactly as this formula does.  Two such
dates compare (`<`, `>`, `toDateString()` equality) the same way these
numbers do. -/
def jsDayNumber (y m d : Nat) : Nat :=
  365 * y + leapCount y + daysBeforeMonth (isLeapJS y) m + (d - 1)

/-- The strict ISO test of `validateDate`:
`v.match(/^\d{4}-\d{2}-\d{2}$/)` — a full-string match, hyphens only. -/
def isoStrict (s : String) : Bool :=
  match s.toList with
  | [a, b, c, d, h1, e, f, h2, g, k] =>
    [a, b, c, d, e, f, g, k].all Char.isDigit && h1 = '-' && h2 = '-'
  | _ => false

/-- The permissive ISO fallback of `#toDate`:
`v.match(/^(\d{4})[-\/](\d{2})[-\/](\d{2})/)` — a leading (unanchored at
the end) 4-2-2 digit pattern with hyphen or slash separators, returning
the three captured numbers. -/
def isoLead (s : String) : Option (Nat × Nat × Nat) :=
  match s.toList with
  | a :: b :: c :: d :: s1 :: e :: f :: s2 :: g :: k :: _ =>
    if [a, b, c, d, e, f, g, k].all Char.isDigit &&
       (s1 = '-' || s1 = '/') && (s2 = '-' || s2 = '/') then
      some (digitsToNat [a, b, c, d], digitsToNat [e, f], digitsToNat [g, k])
    else none
  | _ => none

namespace MaskerValidator

/-- The format alias table shared by `validateDate`, `#toDate` and the
date mask:
`{ MDY: 'MM/DD/YYYY', DMY: 'DD/MM/YYYY', YMD: 'YYYY/MM/DD', 'US-CIV': 'MM/DD/YYYY' }`,
with unknown codes passed through unchanged. -/
def aliasFmt (raw : String) : String :=
  if raw = "MDY" then "MM/DD/YYYY"
  else if raw = "DMY" then "DD/MM/YYYY"
  else if raw = "YMD" then "YYYY/MM/DD"
  else if raw = "US-CIV" then "MM/DD/YYYY"
  else raw

/-- `MaskerValidator.#toDate`.  Takes the (possibly null) element; the
result is the timeline day number of the JS `Date` it returns, or `none`
for a `null` return.  First the permissive ISO fallback (accepted when
month ∈ [1,12] and day ∈ [1,31], regardless of declared format), then
strict splitting into exactly three digit groups ordered by the resolved
format's leading letter, with month/day range and leap-aware
day-of-month validation. -/
def toDate (el? : Option Field) : Option Nat :=
  match el? with
  | none => none
  | some el =>
    if el.value = "" then none
    else
      let v := jsTrim el.value
      match isoLead v with
      | some (y, m, d) =>
        if 1 ≤ m && m ≤ 12 && 1 ≤ d && d ≤ 31 then some (jsDayNumber y m d)
        else toDateStandard v el
      | none => toDateStandard v el
where
  /-- The standard (non-ISO) parsing tail of `#toDate`.  The split parts
  are digit runs, so `parseInt` always succeeds on them and `yy`, `mm`,
  `dd` are nonnegative (`Int.toNat` below is faithful); the `isNaN`
  check is kept anyway. -/
  toDateStandard (v : String) (el : Field) : Option Nat :=
    let raw := jsOrStr el.dataFormat "MDY"
    let fmt := aliasFmt raw
    let parts := (digitRuns v.toList).map (fun r => parseInt10 (String.mk r))
    if parts.length ≠ 3 then none
    else
      match parts with
      | [some p1, some p2, some p3] =>
        let (mm, dd, yy) :=
          if startsWithStr fmt "M" then (p1, p2, p3)
          else if startsWithStr fmt "D" then (p2, p1, p3)
          else if startsWithStr fmt "Y" then (p2, p3, p1)
          else (p1, p2, p3)
        if !(startsWithStr fmt "M" || startsWithStr fmt "D" || startsWithStr fmt "Y") then none
        else if mm < 1 || mm > 12 then none
        else if dd < 1 || dd > 31 then none
        else
          let maxDays : Int :=
            if mm = 2 && isLeapJS yy then 29
            else [0, 31, 28, 31, 30, 31, 30, 31, 31, 30, 31, 30, 31].getD mm.toNat 0
          if dd > maxDays then none
          else some (jsDayNumber yy.toNat mm.toNat dd.toNat)
      | _ => none

/-- `MaskerValidator.#toTime`: minutes since midnight, or `none` for a
`null` (unparseable) result.  Native `time` inputs split on `:` into
hour/minute; text inputs require a `:`, read the hour from the text and
the minute from the legacy minutes `select` when one is present, else
from the text; both paths range-check hour 0–23 and minute 0–59. -/
def toTime (el : Field) : Option Int :=
  if el.isTimeInput then
    if el.value = "" then none
    else
      let ps := splitOnChar ':' el.value.toList
      match (ps[0]?).bind parseInt10L, (ps[1]?).bind parseInt10L with
      | some h, some m =>
        if h < 0 || h > 23 || m < 0 || m > 59 then none else some (h * 60 + m)
      | _, _ => none
  else
    let val := el.value
    if val = "" || !includes val ":" then none
    else
      let ps := splitOnChar ':' val.toList
      let hrs := (ps[0]?).bind parseInt10L
      let mins :=
        match el.minutesSelectValue with
        | some sv => parseInt10 sv
        | none => (ps[1]?).bind parseInt10L
      match hrs, mins with
      | some h, some m =>
        if h < 0 || h > 23 then none
        else if m < 0 || m > 59 then none
        else some (h * 60 + m)
      | _, _ => none

/-- `MaskerValidator.#toDateTime`: compose `#toDate` and `#toTime` into a
single instant (`dateObj.setHours(mins/60, mins%60)`), represented as
minutes on the timeline; JS `Date` values compare the same way. -/
def toDateTime (de te : Option Field) : Option Int :=
  match toDate de, te.bind toTime with
  | some day, some mins => some ((day : Int) * 1440 + mins)
  | _, _ => none

/-- `MaskerValidator.validateRequired`.  The placeholder-collision check
runs first for non-select fields; then emptiness is judged strictly
(whitespace-only is empty) unless the masker declaration contains
`white-space-okay`. -/
def validateRequired (el : Field) : Option String :=
  let maskerAttr := el.maskerAttr
  let allowWhitespace := includes maskerAttr "white-space-okay"
  let val := el.value
  let isSelect := el.isSelect
  if !isSelect && val = el.placeholder then
    some (jsOrStr el.dataErrMsg "This field is required.")
  else
    let isInvalid :=
      if allowWhitespace then val = "" ∨ val.length = 0
      else val = "" ∨ jsTrim val = ""
    if isInvalid then some (jsOrStr el.dataErrMsg "This field is required.")
    else none

/-- The year-range policy block of `validateDate` (step 3, after the
year-length check): skipped entirely under `ancient future`; otherwise
the `ancient`, `future`, `2000`, `1900` and default forward-only rules
run in source order, each returning its message immediately. -/
def yearRangeCheck (mask : String) (y nowY : Int) : Option String :=
  if includes mask "ancient future" then none
  else if includes mask "ancient" && y > nowY then some "Year cannot be in the future."
  else if includes mask "future" && y < nowY then some "Year cannot be in the past."
  else if includes mask "2000" && y < 2000 then some "Year cannot be before 2000."
  else if includes mask "2000" && !includes mask "ignore-max" && y > nowY then
    some s!"Year must be between 2000 and {nowY}."
  else if includes mask "1900" && y < 1900 then some "Year cannot be before 1900."
  else if includes mask "1900" && !includes mask "ignore-max" && y > nowY then
    some s!"Year must be between 1900 and {nowY}."
  else if !includes mask "year-digits-any" && !includes mask "ancient" &&
          !includes mask "1900" && !includes mask "2000" && y < nowY then
    some s!"Year cannot be before {nowY}."
  else none

/-- The day-of-month failure message template of `validateDate`. -/
def dayMsgStr (m d y : Int) : String :=
  s!"Invalid date: {m}/{d} does not exist in year {y}."

/-- Step 5 of `validateDate`: the leap-aware day-of-month bound
(`daysInMonth[m]`, raised to 29 for a leap February), checked after the
plain 01–31 day range. -/
def dayOfMonthCheck (m d y : Int) : Option String :=
  let maxDays : Int :=
    if m = 2 && isLeapJS y then 29
    else [0, 31, 28, 31, 30, 31, 30, 31, 31, 30, 31, 30, 31].getD m.toNat 0
  if d > maxDays then some (dayMsgStr m d y)
  else none

/-- Steps 2b–5 of `validateDate`, from the three split digit groups on:
role assignment by the format's leading letter, zero-padding, year
length, year parse, year range, month range, day range, day-of-month. -/
def validateDateFromParts (mask fmt : String) (parts : List String) (nowY : Int) :
    Option String :=
  match parts with
  | [p1, p2, p3] =>
    let (rawY, rawM, rawD) :=
      if startsWithStr fmt "Y" then (p1, p2, p3)
      else if startsWithStr fmt "D" then (p3, p2, p1)
      else (p3, p1, p2)
    let normM := padStart2 rawM
    let normD := padStart2 rawD
    let normY := rawY
    let allowAnyYearDigits := includes mask "year-digits-any"
    let isValidLen := if allowAnyYearDigits then normY.length > 0 else normY.length = 4
    if !isValidLen then
      if allowAnyYearDigits then some "Year is required." else some "Year must be 4 digits."
    else
      match parseInt10 normY with
      | none => some "Year is not valid."
      | some y =>
        match yearRangeCheck mask y nowY with
        | some msg => some msg
        | none =>
          match parseInt10 normM with
          | none => some "Month must be 01-12."
          | some m =>
            if m < 1 || m > 12 then some "Month must be 01-12."
            else
              match parseInt10 normD with
              | none => some "Day must be 01-31."
              | some d =>
                if d < 1 || d > 31 then some "Day must be 01-31."
                else dayOfMonthCheck m d y
  | _ => none

/-- The clock `validateDate` reads: `new Date().getFullYear()` and the
day number of today's midnight (used only by the max-days-out policy). -/
structure Clock where
  nowY : Int
  today : Int
  deriving Repr, DecidableEq

/-- `MaskerValidator.validateDate`: empty/placeholder pass, strict ISO
pass, `US-MIL` pass, optional max-days-out policy, then split into
exactly three digit groups and `validateDateFromParts`. -/
def validateDate (ck : Clock) (el : Field) : Option String :=
  let v := el.value
  if v = "" || v = el.placeholder then none
  else if isoStrict v then none
  else
    let mask := el.maskerAttr
    let rawFmt := jsOrStr el.dataFormat "MDY"
    if rawFmt = "US-MIL" then none
    else
      let fmt := aliasFmt rawFmt
      let maxDaysErr : Option String :=
        match jsTruthyAttr el.dataMaxDaysOut with
        | none => none
        | some attr =>
          match toDate (some el) with
          | none => none
          | some userDate =>
            match parseInt10 attr with
            | none => none
            | some maxDaysOut =>
              if (userDate : Int) > ck.today + maxDaysOut then
                some (jsOrStr el.dataMaxDaysErrMsg
                  s!"Date cannot be more than {maxDaysOut} days in the future.")
              else none
      match maxDaysErr with
      | some msg => some msg
      | none =>
        let parts := (digitRuns v.toList).map (fun r => String.mk r)
        if parts.length ≠ 3 then some "Date is not valid."
        else validateDateFromParts mask fmt parts ck.nowY

/-- `MaskerValidator.validateDateRange`: `null` unless both values are
nonempty and both parse; then an error exactly when the start date is
strictly after the end date, with the start field's declared range-start
message or a default built from the two titles. -/
def validateDateRange (startEl endEl : Field) : Option String :=
  if startEl.value = "" || endEl.value = "" then none
  else
    match toDate (some startEl), toDate (some endEl) with
    | some d1, some d2 =>
      if d1 > d2 then
        let t1 := jsOrProp startEl.title "Start date"
        let t2 := jsOrProp endEl.title "End date"
        some (jsOrStr startEl.dataErrMsgRangeStart (t1 ++ " cannot be set after " ++ t2))
      else none
    | _, _ => none

/-- `MaskerValidator.validateEmail`: the regex
`/^[^\s@]+@[^\s@]+\.[^\s@]+$/` holds iff the value has no whitespace,
exactly one `@` that is not first, and a `.` strictly inside the part
after the `@`. -/
def validateEmail (el : Field) : Option String :=
  if el.value = "" then none
  else
    let cs := el.value.toList
    let beforeAt := cs.takeWhile (fun c => c ≠ '@')
    let afterAt := (cs.dropWhile (fun c => c ≠ '@')).tail
    let isMatch :=
      cs.all (fun c => !jsWs c) && cs.count '@' = 1 &&
      !beforeAt.isEmpty && (afterAt.dropLast.tail).contains '.'
    if !isMatch then some (jsOrStr el.dataErrMsg "Please enter a valid email address.")
    else none

/-- `MaskerValidator.validateTime`: an error exactly when the value is
nonempty but `#toTime` fails. -/
def validateTime (el : Field) : Option String :=
  if el.value ≠ "" && toTime el = none then some "Please enter a valid time (HH:MM)."
  else none

/-- The `getMsg` closure of `validateDateTimeRange`:
`sd.getAttribute('data-err-msg-range') || ed.getAttribute(...) || defaultMsg`.
`sd`/`ed` are the raw `querySelector` results and may be `null`, in which
case the property access throws (`Except.error ()`). -/
def getMsg (sd ed : Option Field) (dflt : String) : Except Unit String :=
  match sd with
  | none => .error ()
  | some s =>
    match jsTruthyAttr s.dataErrMsgRange with
    | some m => .ok m
    | none =>
      match ed with
      | none => .error ()
      | some e =>
        match jsTruthyAttr e.dataErrMsgRange with
        | some m => .ok m
        | none => .ok dflt

/-- Value-presence test used by `validateDateTimeRange` for the date
roles: the element exists, its value is nonempty and differs from its
placeholder. -/
def fieldPresentVal (el? : Option Field) : Bool :=
  match el? with
  | none => false
  | some el => el.value ≠ "" && el.value ≠ el.placeholder

/-- Time resolution used by `validateDateTimeRange` for the time roles:
`st ? this.#toTime(st) : null`. -/
def optToTime (el? : Option Field) : Option Int :=
  el?.bind toTime

/-- `MaskerValidator.validateDateTimeRange`.  Three guarded branches in
source order: dates-only delegates to `validateDateRange`; times-only
errors when begin-time ≥ end-time; all-four compares times alone on
calendar-identical dates and full instants otherwise.  The result is
`Except` because `getMsg` dereferences the possibly-null `sd`/`ed`. -/
def validateDateTimeRange (sd st ed et : Option Field) : Except Unit (Option String) :=
  let hasSD := fieldPresentVal sd
  let hasED := fieldPresentVal ed
  let t1 := optToTime st
  let t2 := optToTime et
  let hasST := t1.isSome
  let hasET := t2.isSome
  if hasSD && hasED && !hasST && !hasET then
    match sd, ed with
    | some s, some e => .ok (validateDateRange s e)
    | _, _ => .error ()
  else if hasST && hasET && !hasSD && !hasED && t1.getD 0 ≥ t2.getD 0 then
    (getMsg sd ed "End time must be after start time.").map some
  else if hasSD && hasST && hasED && hasET then
    match toDate sd, toDate ed with
    | some d1, some d2 =>
      if d1 = d2 then
        if t1.getD 0 ≥ t2.getD 0 then
          (getMsg sd ed "End time must be after start time on the same day.").map some
        else .ok none
      else
        match toDateTime sd st, toDateTime ed et with
        | some dt1, some dt2 =>
          if dt1 > dt2 then
            (getMsg sd ed "End date must be on or after the start date.").map some
          else .ok none
        | _, _ => (getMsg sd ed "End date must be on or after the start date.").map some
    | _, _ => .ok none
  else .ok none

/-- The `checkRequired` closure of `validate`. -/
def checkRequired (el : Field) : Option String :=
  if el.hasRequiredAttr || includes el.maskerAttr "required" then validateRequired el
  else none

/-- The `checkFormat` closure of `validate`: runs only when the value is
nonempty and differs from the placeholder, dispatching on the leading
masker token. -/
def checkFormat (ck : Clock) (el : Field) : Option String :=
  if el.value ≠ "" && el.value ≠ el.placeholder then
    if startsWithStr el.maskerAttr "date" then validateDate ck el
    else if startsWithStr el.maskerAttr "email" then validateEmail el
    else if startsWithStr el.maskerAttr "time" then validateTime el
    else none
  else none

/-- `document.querySelector('[masker*="tok"][data-pair="pairName"]')`:
first field in document order whose masker attribute contains `tok` and
whose `data-pair` equals `pairName`. -/
def findPair (doc : List Field) (tok pairName : String) : Option Field :=
  doc.find? (fun f => includes f.maskerAttr tok && f.dataPair = some pairName)

/-- The `checkComplex` closure of `validate`: only for fields with a
truthy `data-pair`; locates the four role partners and delegates to
`validateDateTimeRange` when both dates or both times exist as elements. -/
def checkComplex (doc : List Field) (el : Field) : Except Unit (Option String) :=
  match jsTruthyAttr el.dataPair with
  | none => .ok none
  | some pairName =>
    let sd := findPair doc "date begin" pairName
    let st := findPair doc "time begin" pairName
    let ed := findPair doc "date end" pairName
    let et := findPair doc "time end" pairName
    if (sd.isSome && ed.isSome) || (st.isSome && et.isSome) then
      validateDateTimeRange sd st ed et
    else .ok none

/-- The default priority object `{ required: 1, format: 2, complex: 3 }`
in insertion order. -/
def defaultPriority : List (String × Int) :=
  [("required", 1), ("format", 2), ("complex", 3)]

/-- Stable insertion of one keyed entry into a priority-sorted list
(equal priorities keep earlier entries first). -/
def insertByPri (x : String × Int) : List (String × Int) → List (String × Int)
  | [] => [x]
  | y :: ys => if x.2 < y.2 then x :: y :: ys else y :: insertByPri x ys

/-- `Object.keys(priority).sort((a, b) => priority[a] - priority[b])`:
a stable sort of the keys by ascending priority. -/
def sortByPri (l : List (String × Int)) : List (String × Int) :=
  l.foldl (fun acc x => insertByPri x acc) []

/-- JS truthiness of a check result: only a nonempty message stops the
loop. -/
def optTruthy (r : Option String) : Bool :=
  match r with
  | some s => s ≠ ""
  | none => false

/-- The lookup `checkFunctions[priFunction]`: `none` for an unknown key
(such a key is skipped by the loop). -/
def checkFns (ck : Clock) (doc : List Field) (el : Field) (name : String) :
    Option (Except Unit (Option String)) :=
  if name = "required" then some (.ok (checkRequired el))
  else if name = "format" then some (.ok (checkFormat ck el))
  else if name = "complex" then some (checkComplex doc el)
  else none

/-- The `for (const priFunction of sortedChecks)` loop of `validate`:
run each known check in order, returning the first truthy error (and
propagating a thrown exception). -/
def runChecksLoop (ck : Clock) (doc : List Field) (el : Field) :
    List String → Except Unit (Option String)
  | [] => .ok none
  | name :: rest =>
    match checkFns ck doc el name with
    | none => runChecksLoop ck doc el rest
    | some act =>
      match act with
      | .error e => .error e
      | .ok r => if optTruthy r then .ok r else runChecksLoop ck doc el rest

/-- `MaskerValidator.validate`: sort the priority keys, then run the
checks in that order, short-circuiting on the first truthy error. -/
def validate (ck : Clock) (doc : List Field) (el : Field)
    (priority : List (String × Int)) : Except Unit (Option String) :=
  runChecksLoop ck doc el ((sortByPri priority).map Prod.fst)

end MaskerValidator

namespace Masker

/-- `input.value.replace(/\D/g, '')`: the digit characters of the raw
input, in order. -/
def stripNonDigits (s : String) : List Char :=
  s.toList.filter Char.isDigit

/-- The loop of `Masker.#applyPatternMask`: walk the template while
digits remain, copying literals and substituting the sentinel `ph` with
successive digits; the walk ends when either list is exhausted. -/
def fillTemplate (ph : Char) : List Char → List Char → List Char
  | [], _ => []
  | _ :: _, [] => []
  | f :: fs, d :: ds =>
    if f = ph then d :: fillTemplate ph fs ds
    else f :: fillTemplate ph fs (d :: ds)

/-- `Masker.#applyPatternMask(e, fmt, ph)`: strip non-digits from the
value, then replay them into the template. -/
def applyPatternMask (fmt : String) (ph : Char) (value : String) : String :=
  String.mk (fillTemplate ph fmt.toList (stripNonDigits value))

/-- A DOM element as seen by `Masker.#bindElement`: the binding marker
(`data-mask-bound`), connectivity, the `#isVisible` verdict, the masker
attribute, the `required` attribute, the facts `#setupTimeField` probes
(native `time` input; a `td`/`.ms-dtinput` container and how many
`select`s it holds), the `data-format` attribute, and the ordered list
of event-listener registrations performed for this field so far. -/
structure DomEl where
  maskBound : Option String
  isConnected : Bool
  visible : Bool
  maskerAttr : Option String
  hasRequiredAttr : Bool
  isNativeTime : Bool
  hasTimeContainer : Bool
  timeSelectCount : Nat
  dataFormat : Option String
  listeners : List String
  deriving Repr, DecidableEq

/-- `Masker.#addRequiredValidation`: a blur and an input listener when
the field is flagged required. -/
def requiredListeners (el : DomEl) : List String :=
  let m := jsOrStr el.maskerAttr ""
  if el.hasRequiredAttr || includes m "required" then ["blur", "input"] else []

/-- Listener registrations of `Masker.#setupTimeField`: native time
inputs get a blur listener; text `time begin`/`time end` fields get one
blur listener per `select` in their container (none when the container
is missing — the function bails). -/
def setupTimeListeners (el : DomEl) : List String :=
  if el.isNativeTime then ["blur"]
  else
    let maskAttr := jsOrStr el.maskerAttr ""
    if includes maskAttr "time begin" || includes maskAttr "time end" then
      if el.hasTimeContainer then List.replicate el.timeSelectCount "select:blur" else []
    else []

/-- Listener registrations of `Masker.#setupDateMask` (the `US-MIL`
variant registers in a slightly different order). -/
def setupDateListeners (el : DomEl) : List String :=
  let rawFmt := jsOrStr el.dataFormat "MDY"
  if rawFmt = "US-MIL" then ["input", "focus", "keydown", "blur"]
  else ["focus", "input", "keydown", "blur"]

/-- The mask-specific listener registrations chosen by `#bindElement`'s
token dispatch (an `else if` chain, plus the independent `special`
check), given the split token list of the masker attribute. -/
def maskListeners (el : DomEl) (tokens : List String) : List String :=
  (if tokens.contains "char-count" then ["keydown", "input"]
   else if tokens.contains "number" then ["input"]
   else if tokens.contains "phone" then ["focus", "input", "keydown", "blur"]
   else if tokens.contains "email" then ["focus", "keydown", "input", "blur"]
   else if tokens.contains "time" then setupTimeListeners el
   else if tokens.contains "date" then setupDateListeners el ++ ["change"]
   else [])
  ++ (if tokens.contains "special" then ["input"] else [])

/-- The full set of event-listener registrations one successful
`#bindElement` call performs for a field: the validation blur listener,
then (when the masker attribute is truthy) the token-dispatched mask
listeners, then the required-validation listeners. -/
def freshListeners (el : DomEl) : List String :=
  match jsTruthyAttr el.maskerAttr with
  | none => ["blur"] ++ requiredListeners el
  | some m =>
    let tokens := ((splitOnChar ' ' m.toList).map (fun r => String.mk r)).filter (fun t => t ≠ "")
    ["blur"] ++ maskListeners el tokens ++ requiredListeners el

/-- `Masker.#bindElement`: skip elements whose bound marker is already
`'true'`, disconnected elements, and (unless `includeHidden`) invisible
ones; otherwise set the marker, attach the validation blur listener and
the mask-specific and required listeners.  The listener setups also
write placeholder text into the field's value for `visible` masks; that
never feeds back into this guard. -/
def bindElement (includeHidden : Bool) (el : DomEl) : DomEl :=
  if el.maskBound = some "true" then el
  else if !el.isConnected then el
  else if !includeHidden && !el.visible then el
  else
    let el := { el with maskBound := some "true" }
    { el with listeners := el.listeners ++ freshListeners el }

/-- One discovery-and-bind pass of `Masker.init` over the candidate
fields of a document: `nodes.forEach(el => this.#bindElement(el, ...))`. -/
def initPass (includeHidden : Bool) (doc : List DomEl) : List DomEl :=
  doc.map (bindElement includeHidden)

end Masker

/-! ## Specification-side definitions

The following definitions are written from the specification's words,
not from the source, for comparison against the embedded code. -/

/-- Spec: the number of days of month `m` of year `y`, with the spec's
leap rule stated via divisibility: a year is leap iff it is divisible
by 4 and not by 100, or divisible by 400. -/
def specMonthLength (m y : Int) : Int :=
  if m = 2 then (if (4 ∣ y ∧ ¬(100 ∣ y)) ∨ 400 ∣ y then 29 else 28)
  else if m = 4 ∨ m = 6 ∨ m = 9 ∨ m = 11 then 30
  else 31

/-- Spec (C7): the number of sentinel slots of a digit template. -/
def slotCapacity (ph : Char) (fmt : List Char) : Nat :=
  fmt.countP (fun c => c = ph)

/-- Spec (C7): the template with every sentinel replaced by the next
digit, all literals kept (total: pads with the sentinel itself if the
digits run out, a case the theorems never reach). -/
def fullFill (ph : Char) : List Char → List Char → List Char
  | [], _ => []
  | f :: fs, ds =>
    if f = ph then ds.headD ph :: fullFill ph fs ds.tail
    else f :: fullFill ph fs ds

/-- Spec (C7): how many leading template characters the mask loop emits
when exactly `n` digits are available: everything up to and including
the sentinel that consumes the last digit. -/
def fillStop (ph : Char) (fmt : List Char) (n : Nat) : Nat :=
  match fmt, n with
  | _, 0 => 0
  | [], _ + 1 => 0
  | f :: fs, k + 1 =>
    if f = ph then fillStop ph fs k + 1 else fillStop ph fs (k + 1) + 1

/-! ## Concrete fields used by witnesses and counterexamples -/

/-- Begin-date field holding `03/01/2025` (MDY), pair key `trip`. -/
def beginMar : Field :=
  { blankField with
    value := "03/01/2025", maskerAttr := "date begin", dataPair := some "trip" }

/-- Begin-date field holding `01/01/2025` (MDY), pair key `trip`. -/
def beginJan : Field :=
  { blankField with
    value := "01/01/2025", maskerAttr := "date begin", dataPair := some "trip" }

/-- End-date field holding `02/01/2025` (MDY), pair key `trip`. -/
def endFeb : Field :=
  { blankField with
    value := "02/01/2025", maskerAttr := "date end", dataPair := some "trip" }

/-- A two-field document: begin `03/01/2025`, end `02/01/2025`. -/
def rangeDoc : List Field := [beginMar, endFeb]

/-- Begin-date field holding `06/15/2025`. -/
def sdJun : Field :=
  { blankField with
    value := "06/15/2025", maskerAttr := "date begin", dataPair := some "trip" }

/-- End-date field holding `06/15/2025`. -/
def edJun : Field :=
  { blankField with
    value := "06/15/2025", maskerAttr := "date end", dataPair := some "trip" }

/-- Native time input holding `14:00`. -/
def time1400 : Field :=
  { blankField with value := "14:00", maskerAttr := "time begin", isTimeInput := true }

/-- Native time input holding `13:00`. -/
def time1300 : Field :=
  { blankField with value := "13:00", maskerAttr := "time end", isTimeInput := true }

/-- Native time input holding `09:00`. -/
def time0900 : Field :=
  { blankField with value := "09:00", maskerAttr := "time begin", isTimeInput := true }

/-- Native time input holding `17:00`. -/
def time1700 : Field :=
  { blankField with value := "17:00", maskerAttr := "time end", isTimeInput := true }

/-- A date field whose value begins with a 4-digit year, 2-digit month
and 2-digit day separated by slashes, under the default MDY format. -/
def isoSlashField : Field :=
  { blankField with value := "2026/01/15", maskerAttr := "date" }

/-- A date field holding an exact strict-ISO value `2026-01-15`. -/
def isoStrictField : Field :=
  { blankField with value := "2026-01-15", maskerAttr := "date" }

/-- A date field holding a machine-generated ISO datetime with a
trailing time suffix. -/
def isoSuffixField : Field :=
  { blankField with value := "2026-01-15T12:00:00Z", maskerAttr := "date" }

/-- A date field whose year-range policy is disabled (`ancient future`),
holding the given MDY value — used for leap-year boundary checks. -/
def anyYearDate (v : String) : Field :=
  { blankField with value := v, maskerAttr := "date ancient future" }

/-- A plain date field holding `01/01/2020` under the default
forward-only year policy. -/
def pastField : Field :=
  { blankField with value := "01/01/2020", maskerAttr := "date" }

/-! ## Claim theorems -/

theorem str_length_zero_iff (s : String) : s.length = 0 ↔ s = "" := by
  cases s with
  | mk data =>
    constructor
    · intro h
      have : data = [] := List.length_eq_zero.mp h
      simp [this]
    · intro h
      rw [h]
      rfl

theorem jsTrim_empty : jsTrim "" = "" := rfl

theorem fullFill_length (ph : Char) (fmt : List Char) :
    ∀ ds, (fullFill ph fmt ds).length = fmt.length := by
  induction fmt with
  | nil => intro ds; rfl
  | cons f fs ih =>
    intro ds
    by_cases h : f = ph <;> simp [fullFill, h, ih]

theorem fillTemplate_of_excess (ph : Char) (fmt : List Char) :
    ∀ ds : List Char, slotCapacity ph fmt < ds.length →
      Masker.fillTemplate ph fmt ds = fullFill ph fmt ds := by
  induction fmt with
  | nil => intro ds _; cases ds <;> rfl
  | cons f fs ih =>
    intro ds h
    cases ds with
    | nil => simp at h
    | cons d ds' =>
      by_cases hf : f = ph
      · simp only [Masker.fillTemplate, fullFill, if_pos hf, List.headD, List.tail]
        refine congrArg _ (ih ds' ?_)
        simp [slotCapacity, hf] at h ⊢
        omega
      · simp only [Masker.fillTemplate, fullFill, if_neg hf]
        refine congrArg _ (ih (d :: ds') ?_)
        simp [slotCapacity, hf] at h ⊢
        omega

theorem fillTemplate_of_short (ph : Char) (fmt : List Char) :
    ∀ ds : List Char, ds.length ≤ slotCapacity ph fmt →
      Masker.fillTemplate ph fmt ds =
        fullFill ph (fmt.take (fillStop ph fmt ds.length)) ds := by
  induction fmt with
  | nil =>
    intro ds h
    simp [slotCapacity] at h
    subst h
    rfl
  | cons f fs ih =>
    intro ds h
    cases ds with
    | nil => simp [Masker.fillTemplate, fillStop, fullFill]
    | cons d ds' =>
      by_cases hf : f = ph
      · simp only [Masker.fillTemplate, if_pos hf, List.length_cons, fillStop,
          List.take_succ_cons, fullFill, List.headD, List.tail]
        refine congrArg _ (ih ds' ?_)
        simp [slotCapacity, hf] at h ⊢
        omega
      · simp only [Masker.fillTemplate, if_neg hf, List.length_cons, fillStop,
          List.take_succ_cons, fullFill]
        refine congrArg _ (ih (d :: ds') ?_)
        simp [slotCapacity, hf] at h ⊢
        omega

theorem jsOrStr_ne_empty (a : Option String) (d : String) (hd : d ≠ "") :
    jsOrStr a d ≠ "" := by
  unfold jsOrStr
  match a with
  | none => exact hd
  | some s =>
    by_cases hs : s = "" <;> simp [hs, hd]

theorem validateRequired_of_empty (el : Field) (h : el.value = "") :
    MaskerValidator.validateRequired el =
      some (jsOrStr el.dataErrMsg "This field is required.") := by
  simp only [MaskerValidator.validateRequired, h]
  split_ifs <;> simp_all

/-- Claim C1: under the default priority map the checks run in the
order required, format, complex, and evaluation stops at the first
check returning a non-null message (first and second conjuncts); hence
a field flagged required (by attribute or by a `required` token in the
masker declaration — the code actually tests substring containment,
which the token case implies) whose value is empty always gets the
required-check message (`data-errMsg` if declared, else the generic
one), and no format or complex result is ever produced for it, whatever
the document and clock (third conjunct). -/
theorem C1_required_first_and_short_circuit :
    ((MaskerValidator.sortByPri MaskerValidator.defaultPriority).map Prod.fst =
        ["required", "format", "complex"]) ∧
    (∀ (ck : MaskerValidator.Clock) (doc : List Field) (el : Field),
        MaskerValidator.validate ck doc el MaskerValidator.defaultPriority =
          (if MaskerValidator.optTruthy (MaskerValidator.checkRequired el) then
             .ok (MaskerValidator.checkRequired el)
           else if MaskerValidator.optTruthy (MaskerValidator.checkFormat ck el) then
             .ok (MaskerValidator.checkFormat ck el)
           else
             match MaskerValidator.checkComplex doc el with
             | .error e => .error e
             | .ok r => if MaskerValidator.optTruthy r then .ok r else .ok none)) ∧
    (∀ (ck : MaskerValidator.Clock) (doc : List Field) (el : Field),
        (el.hasRequiredAttr = true ∨ includes el.maskerAttr "required" = true) →
        el.value = "" →
        MaskerValidator.validate ck doc el MaskerValidator.defaultPriority =
          .ok (some (jsOrStr el.dataErrMsg "This field is required."))) := by
  have horder : (MaskerValidator.sortByPri MaskerValidator.defaultPriority).map Prod.fst =
      ["required", "format", "complex"] := by decide
  have hchain : ∀ (ck : MaskerValidator.Clock) (doc : List Field) (el : Field),
      MaskerValidator.validate ck doc el MaskerValidator.defaultPriority =
        (if MaskerValidator.optTruthy (MaskerValidator.checkRequired el) then
           .ok (MaskerValidator.checkRequired el)
         else if MaskerValidator.optTruthy (MaskerValidator.checkFormat ck el) then
           .ok (MaskerValidator.checkFormat ck el)
         else
           match MaskerValidator.checkComplex doc el with
           | .error e => .error e
           | .ok r => if MaskerValidator.optTruthy r then .ok r else .ok none) := by
    intro ck doc el
    rfl
  refine ⟨horder, hchain, ?_⟩
  intro ck doc el hreq hempty
  rw [hchain ck doc el]
  have hcr : MaskerValidator.checkRequired el =
      some (jsOrStr el.dataErrMsg "This field is required.") := by
    unfold MaskerValidator.checkRequired
    have : (el.hasRequiredAttr || includes el.maskerAttr "required") = true := by
      rcases hreq with h | h <;> simp [h]
    rw [if_pos this]
    exact validateRequired_of_empty el hempty
  have hne : jsOrStr el.dataErrMsg "This field is required." ≠ "" :=
    jsOrStr_ne_empty el.dataErrMsg "This field is required." (by decide)
  have htr : MaskerValidator.optTruthy (MaskerValidator.checkRequired el) = true := by
    rw [hcr]
    exact decide_eq_true hne
  rw [if_pos htr, hcr]

/-- Witness for C1: a concrete empty field carrying `required` in its
masker declaration, validated against an arbitrary document, returns
exactly the generic required message. -/
theorem C1_witness :
    MaskerValidator.validate ⟨2026, 0⟩ []
        { blankField with maskerAttr := "date required" }
        MaskerValidator.defaultPriority =
      .ok (some "This field is required.") := by
  have := C1_required_first_and_short_circuit.2.2 ⟨2026, 0⟩ []
    { blankField with maskerAttr := "date required" }
    (Or.inr (by decide)) rfl
  exact this

/-- Claim C3: when both paired date fields hold present, parseable,
non-placeholder values and neither time role yields a value, the range
check returns an error exactly when the begin date is strictly after
the end date, with the begin field's declared range-start message or a
default built from the two titles (first conjunct: the
`validateDateRange` characterization; second: `validateDateTimeRange`
delegates its dates-only branch to it).  Concretely (third conjunct):
begin `03/01/2025` / end `02/01/2025` in MDY errors with the default
message, begin `01/01/2025` / end `02/01/2025` does not, and validating
the begin field itself returns the message — the error is attributed to
the begin field. -/
theorem C3_date_only_range :
    (∀ (s e : Field) (n1 n2 : Nat),
        s.value ≠ "" → e.value ≠ "" →
        MaskerValidator.toDate (some s) = some n1 →
        MaskerValidator.toDate (some e) = some n2 →
        MaskerValidator.validateDateRange s e =
          (if n1 > n2 then
             some (jsOrStr s.dataErrMsgRangeStart
               (jsOrProp s.title "Start date" ++ " cannot be set after " ++
                 jsOrProp e.title "End date"))
           else none)) ∧
    (∀ (s e : Field) (st et : Option Field),
        MaskerValidator.fieldPresentVal (some s) = true →
        MaskerValidator.fieldPresentVal (some e) = true →
        MaskerValidator.optToTime st = none →
        MaskerValidator.optToTime et = none →
        MaskerValidator.validateDateTimeRange (some s) st (some e) et =
          .ok (MaskerValidator.validateDateRange s e)) ∧
    (MaskerValidator.validateDateTimeRange (some beginMar) none (some endFeb) none =
        .ok (some "Start date cannot be set after End date") ∧
     MaskerValidator.validateDateTimeRange (some beginJan) none (some endFeb) none =
        .ok none ∧
     MaskerValidator.validate ⟨2025, 0⟩ rangeDoc beginMar MaskerValidator.defaultPriority =
        .ok (some "Start date cannot be set after End date")) := by
  refine ⟨?_, ?_, ?_, ?_, ?_⟩
  · intro s e n1 n2 hs he h1 h2
    unfold MaskerValidator.validateDateRange
    rw [if_neg (by simp [hs, he]), h1, h2]
  · intro s e st et hs he hst het
    simp [MaskerValidator.validateDateTimeRange, hs, he, hst, het]
  · rfl
  · rfl
  · rfl

/-- Witness for C3: the general `validateDateRange` characterization
applied at the concrete begin `03/01/2025` / end `02/01/2025` fields. -/
theorem C3_witness :
    MaskerValidator.validateDateRange beginMar endFeb =
      some "Start date cannot be set after End date" := by
  have := C3_date_only_range.1 beginMar endFeb
    (jsDayNumber 2025 3 1) (jsDayNumber 2025 2 1)
    (by decide) (by decide) (by decide) (by decide)
  rw [this]
  decide

/-- Claim C2: when all four range roles are present and parseable,
exactly the all-four branch decides the result: calendar-identical
dates compare times only (error iff begin-time ≥ end-time), otherwise
full instants are composed and the error comes iff the begin instant is
strictly after the end instant — so equal full instants on differing
calendar dates are permitted (first conjunct).  The three branch guards
are pairwise exclusive, so never more than one of the three comparisons
runs in a single evaluation (second conjunct). -/
theorem C2_all_four_comparison :
    (∀ (sd ed : Field) (st et : Option Field) (t1 t2 : Int) (n1 n2 : Nat),
        MaskerValidator.fieldPresentVal (some sd) = true →
        MaskerValidator.fieldPresentVal (some ed) = true →
        MaskerValidator.optToTime st = some t1 →
        MaskerValidator.optToTime et = some t2 →
        MaskerValidator.toDate (some sd) = some n1 →
        MaskerValidator.toDate (some ed) = some n2 →
        MaskerValidator.validateDateTimeRange (some sd) st (some ed) et =
          (if n1 = n2 then
             (if t1 ≥ t2 then
                (MaskerValidator.getMsg (some sd) (some ed)
                  "End time must be after start time on the same day.").map some
              else .ok none)
           else
             (if (n1 : Int) * 1440 + t1 > (n2 : Int) * 1440 + t2 then
                (MaskerValidator.getMsg (some sd) (some ed)
                  "End date must be on or after the start date.").map some
              else .ok none))) ∧
    (∀ (sd st ed et : Option Field),
        ¬((MaskerValidator.fieldPresentVal sd && MaskerValidator.fieldPresentVal ed &&
            !(MaskerValidator.optToTime st).isSome && !(MaskerValidator.optToTime et).isSome) = true ∧
          ((MaskerValidator.optToTime st).isSome && (MaskerValidator.optToTime et).isSome &&
            !MaskerValidator.fieldPresentVal sd && !MaskerValidator.fieldPresentVal ed) = true) ∧
        ¬((MaskerValidator.fieldPresentVal sd && MaskerValidator.fieldPresentVal ed &&
            !(MaskerValidator.optToTime st).isSome && !(MaskerValidator.optToTime et).isSome) = true ∧
          (MaskerValidator.fieldPresentVal sd && (MaskerValidator.optToTime st).isSome &&
            MaskerValidator.fieldPresentVal ed && (MaskerValidator.optToTime et).isSome) = true) ∧
        ¬(((MaskerValidator.optToTime st).isSome && (MaskerValidator.optToTime et).isSome &&
            !MaskerValidator.fieldPresentVal sd && !MaskerValidator.fieldPresentVal ed) = true ∧
          (MaskerValidator.fieldPresentVal sd && (MaskerValidator.optToTime st).isSome &&
            MaskerValidator.fieldPresentVal ed && (MaskerValidator.optToTime et).isSome) = true)) := by
  constructor
  · intro sd ed st et t1 t2 n1 n2 hsd hed hst het hd1 hd2
    unfold MaskerValidator.validateDateTimeRange
    rw [hsd, hed, hst, het, hd1, hd2]
    simp only [Option.isSome_some, Bool.not_true, Bool.and_false, Bool.false_and,
      Bool.and_true, Bool.true_and, Bool.false_eq_true, if_false, Option.getD_some]
    have hst2 : st.bind MaskerValidator.toTime = some t1 := hst
    have het2 : et.bind MaskerValidator.toTime = some t2 := het
    by_cases hnn : n1 = n2
    · simp [hnn]
    · have hdt1 : MaskerValidator.toDateTime (some sd) st = some ((n1 : Int) * 1440 + t1) := by
        unfold MaskerValidator.toDateTime
        rw [hd1, hst2]
      have hdt2 : MaskerValidator.toDateTime (some ed) et = some ((n2 : Int) * 1440 + t2) := by
        unfold MaskerValidator.toDateTime
        rw [hd2, het2]
      rw [hdt1, hdt2, if_neg hnn, if_pos trivial]
  · intro sd st ed et
    cases hsd : MaskerValidator.fieldPresentVal sd <;>
      cases hed : MaskerValidator.fieldPresentVal ed <;>
        cases hst : (MaskerValidator.optToTime st).isSome <;>
          cases het : (MaskerValidator.optToTime et).isSome <;>
            simp

/-- Witness for C2: same-day `06/15/2025` with begin-time `14:00` and
end-time `13:00` produces the day-qualified time-order message. -/
theorem C2_witness :
    MaskerValidator.validateDateTimeRange (some sdJun) (some time1400)
        (some edJun) (some time1300) =
      .ok (some "End time must be after start time on the same day.") := by
  have := C2_all_four_comparison.1 sdJun edJun (some time1400) (some time1300)
    840 780 (jsDayNumber 2025 6 15) (jsDayNumber 2025 6 15)
    (by decide) (by decide) (by decide) (by decide) (by decide) (by decide)
  rw [this]
  rfl

/-- Claim C10: any presence combination other than (both dates, neither
time), (both times, neither date) and (all four) makes
`validateDateTimeRange` select no comparison branch and return no error
(first conjunct).  In particular (second conjunct), with both dates
present and non-placeholder but only the begin time parseable, the
result is no error even though the begin date `03/01/2025` is strictly
after the end date `02/01/2025`. -/
theorem C10_no_branch_no_error :
    (∀ (sd st ed et : Option Field),
        (MaskerValidator.fieldPresentVal sd && MaskerValidator.fieldPresentVal ed &&
          !(MaskerValidator.optToTime st).isSome && !(MaskerValidator.optToTime et).isSome) = false →
        ((MaskerValidator.optToTime st).isSome && (MaskerValidator.optToTime et).isSome &&
          !MaskerValidator.fieldPresentVal sd && !MaskerValidator.fieldPresentVal ed) = false →
        (MaskerValidator.fieldPresentVal sd && (MaskerValidator.optToTime st).isSome &&
          MaskerValidator.fieldPresentVal ed && (MaskerValidator.optToTime et).isSome) = false →
        MaskerValidator.validateDateTimeRange sd st ed et = .ok none) ∧
    (MaskerValidator.validateDateTimeRange (some beginMar) (some time1400)
        (some endFeb) none = .ok none ∧
     MaskerValidator.toDate (some beginMar) = some (jsDayNumber 2025 3 1) ∧
     MaskerValidator.toDate (some endFeb) = some (jsDayNumber 2025 2 1) ∧
     jsDayNumber 2025 3 1 > jsDayNumber 2025 2 1) := by
  constructor
  · intro sd st ed et h1 h2 h3
    cases ha : MaskerValidator.fieldPresentVal sd <;>
      cases hb : MaskerValidator.fieldPresentVal ed <;>
        cases hc : (MaskerValidator.optToTime st).isSome <;>
          cases hd : (MaskerValidator.optToTime et).isSome <;>
            simp_all [MaskerValidator.validateDateTimeRange]
  · exact ⟨rfl, by decide, by decide, by decide⟩

/-- Witness for C10: both dates present (begin after end) with only one
parseable time — the general theorem applies and yields no error. -/
theorem C10_witness :
    MaskerValidator.validateDateTimeRange (some beginJan) (some time1400)
        (some endFeb) none = .ok none := by
  exact C10_no_branch_no_error.1 (some beginJan) (some time1400) (some endFeb) none
    (by decide) (by decide) (by decide)

/-- Claim C7, as stated, is false on the code: with the source's own US
phone template `(000) 000-0000` and input `"123"` (3 digits, below the
14-character template's capacity of 10), the applier emits `"(123"` —
the trailing slots do NOT remain in the output as template literals
(the output stops right after the last digit, 4 characters against the
template's 14).  Moreover, for a digit count that exactly MEETS the
capacity of a custom template with literals after its last slot
(`"00-00x"`, digits `"1234"`), the output is `"12-34"`, of length 5,
not the template length 6. -/
theorem C7_counterexample :
    (Masker.applyPatternMask "(000) 000-0000" '0' "123" = "(123" ∧
      ("(123" : String).length = 4 ∧ ("(000) 000-0000" : String).length = 14) ∧
    (Masker.applyPatternMask "00-00x" '0' "1234" = "12-34" ∧
      (Masker.stripNonDigits "1234").length = slotCapacity '0' ("00-00x" : String).toList ∧
      ("12-34" : String).length = 5 ∧ ("00-00x" : String).length = 6) := by
  exact ⟨⟨rfl, rfl, rfl⟩, ⟨rfl, rfl, rfl, rfl⟩⟩

/-- Claim C7 (amended): the digit-template applier strips non-digits
and replays them into the template's sentinel slots in order.  When the
digit count is at most the slot capacity, the output is the template's
shortest leading portion containing exactly that many slots, with the
sentinels replaced by the digits in order — the rest of the template
(its unfilled slots and any later literals) is omitted, so the walk
stops at the last consumed digit.  When the digit count strictly
exceeds the capacity, the excess digits are dropped silently, every
slot is filled in order, and the output length equals the template
length. -/
theorem C7_amended_patternMask (fmt : String) (ph : Char) (value : String) :
    ((Masker.stripNonDigits value).length ≤ slotCapacity ph fmt.toList →
      Masker.applyPatternMask fmt ph value =
        String.mk (fullFill ph
          (fmt.toList.take (fillStop ph fmt.toList (Masker.stripNonDigits value).length))
          (Masker.stripNonDigits value))) ∧
    (slotCapacity ph fmt.toList < (Masker.stripNonDigits value).length →
      Masker.applyPatternMask fmt ph value =
        String.mk (fullFill ph fmt.toList (Masker.stripNonDigits value)) ∧
      (Masker.applyPatternMask fmt ph value).length = fmt.length) := by
  constructor
  · intro h
    unfold Masker.applyPatternMask
    rw [fillTemplate_of_short ph fmt.toList (Masker.stripNonDigits value) h]
  · intro h
    have he := fillTemplate_of_excess ph fmt.toList (Masker.stripNonDigits value) h
    constructor
    · unfold Masker.applyPatternMask
      rw [he]
    · unfold Masker.applyPatternMask
      rw [he]
      show (fullFill ph fmt.toList (Masker.stripNonDigits value)).length = fmt.length
      rw [fullFill_length]
      rfl

/-- Witness for C7 (amended), at the US phone template: 3 digits fill
the first three slots and the output stops there; 11 digits (one more
than capacity) fill the whole template. -/
theorem C7_amended_witness :
    Masker.applyPatternMask "(000) 000-0000" '0' "123" =
      String.mk (fullFill '0'
        (("(000) 000-0000" : String).toList.take
          (fillStop '0' ("(000) 000-0000" : String).toList
            (Masker.stripNonDigits "123").length))
        (Masker.stripNonDigits "123")) ∧
    Masker.applyPatternMask "(000) 000-0000" '0' "12345678901" =
      String.mk (fullFill '0' ("(000) 000-0000" : String).toList
        (Masker.stripNonDigits "12345678901")) := by
  constructor
  · exact (C7_amended_patternMask "(000) 000-0000" '0' "123").1 (by decide)
  · exact ((C7_amended_patternMask "(000) 000-0000" '0' "12345678901").2 (by decide)).1

/-- Claim C9: binding is idempotent per field.  An element whose bound
marker is already set is returned untouched (no listeners added); a
second `#bindElement` on any element is a no-op; hence a second
discovery-and-bind pass (`init`) over the same document changes
nothing; and a first successful binding sets the marker and appends
exactly one set of listeners. -/
theorem C9_bind_idempotent :
    (∀ (inc : Bool) (el : Masker.DomEl), el.maskBound = some "true" →
        Masker.bindElement inc el = el) ∧
    (∀ (inc : Bool) (el : Masker.DomEl),
        Masker.bindElement inc (Masker.bindElement inc el) = Masker.bindElement inc el) ∧
    (∀ (inc : Bool) (doc : List Masker.DomEl),
        Masker.initPass inc (Masker.initPass inc doc) = Masker.initPass inc doc) ∧
    (∀ (inc : Bool) (el : Masker.DomEl), el.maskBound ≠ some "true" →
        el.isConnected = true → (inc || el.visible) = true →
        (Masker.bindElement inc el).maskBound = some "true" ∧
        (Masker.bindElement inc el).listeners =
          el.listeners ++ Masker.freshListeners el) := by
  have hskip : ∀ (inc : Bool) (el : Masker.DomEl), el.maskBound = some "true" →
      Masker.bindElement inc el = el := by
    intro inc el h
    simp [Masker.bindElement, h]
  have hidem : ∀ (inc : Bool) (el : Masker.DomEl),
      Masker.bindElement inc (Masker.bindElement inc el) = Masker.bindElement inc el := by
    intro inc el
    by_cases h1 : el.maskBound = some "true"
    · rw [hskip inc el h1, hskip inc el h1]
    · by_cases h2 : el.isConnected
      · by_cases h3 : (!inc && !el.visible) = true
        · have : Masker.bindElement inc el = el := by
            simp [Masker.bindElement, h1, h2, h3]
          rw [this, this]
        · have hb : (Masker.bindElement inc el).maskBound = some "true" := by
            simp [Masker.bindElement, h1, h2, h3]
          exact hskip inc _ hb
      · have : Masker.bindElement inc el = el := by
          simp [Masker.bindElement, h1, h2]
        rw [this, this]
  refine ⟨hskip, hidem, ?_, ?_⟩
  · intro inc doc
    unfold Masker.initPass
    rw [List.map_map]
    exact List.map_congr_left (fun el _ => hidem inc el)
  · intro inc el h1 h2 h3
    have h3' : (!inc && !el.visible) = false := by
      cases inc <;> cases hv : el.visible <;> simp_all
    constructor
    · simp [Masker.bindElement, h1, h2, h3']
    · simp [Masker.bindElement, h1, h2, h3', Masker.freshListeners,
        Masker.requiredListeners, Masker.maskListeners, Masker.setupTimeListeners,
        Masker.setupDateListeners]

/-- Witness for C9: a concrete fresh, connected, visible date field is
bound once (marker set, one listener set appended), and a second pass
leaves it untouched. -/
theorem C9_witness :
    (Masker.bindElement false
        { maskBound := none, isConnected := true, visible := true,
          maskerAttr := some "date required", hasRequiredAttr := false,
          isNativeTime := false, hasTimeContainer := false, timeSelectCount := 0,
          dataFormat := none, listeners := [] }).listeners =
      ["blur", "focus", "input", "keydown", "blur", "change", "blur", "input"] ∧
    Masker.bindElement false
        (Masker.bindElement false
          { maskBound := none, isConnected := true, visible := true,
            maskerAttr := some "date required", hasRequiredAttr := false,
            isNativeTime := false, hasTimeContainer := false, timeSelectCount := 0,
            dataFormat := none, listeners := [] }) =
      Masker.bindElement false
        { maskBound := none, isConnected := true, visible := true,
          maskerAttr := some "date required", hasRequiredAttr := false,
          isNativeTime := false, hasTimeContainer := false, timeSelectCount := 0,
          dataFormat := none, listeners := [] } := by
  constructor
  · have := (C9_bind_idempotent.2.2.2 false
      { maskBound := none, isConnected := true, visible := true,
        maskerAttr := some "date required", hasRequiredAttr := false,
        isNativeTime := false, hasTimeContainer := false, timeSelectCount := 0,
        dataFormat := none, listeners := [] } (by decide) rfl rfl).2
    rw [this]
    decide
  · exact C9_bind_idempotent.2.1 false _

theorem isLeapJS_iff_spec (y : Int) :
    isLeapJS y = true ↔ ((4 ∣ y ∧ ¬(100 ∣ y)) ∨ 400 ∣ y) := by
  unfold isLeapJS
  simp only [Bool.or_eq_true, Bool.and_eq_true, decide_eq_true_eq, ne_eq]
  constructor
  · rintro (⟨h4, h100⟩ | h400)
    · exact Or.inl ⟨Int.dvd_of_tmod_eq_zero h4,
        fun hc => h100 (Int.tmod_eq_zero_of_dvd hc)⟩
    · exact Or.inr (Int.dvd_of_tmod_eq_zero h400)
  · rintro (⟨h4, h100⟩ | h400)
    · exact Or.inl ⟨Int.tmod_eq_zero_of_dvd h4,
        fun hc => h100 (Int.dvd_of_tmod_eq_zero hc)⟩
    · exact Or.inr (Int.tmod_eq_zero_of_dvd h400)

/-- Claim C4: for a date that reaches the day-of-month stage,
`validateDate` rejects exactly the days exceeding the actual month
length under the spec's divisibility-phrased leap rule (first conjunct,
stated against the spec-side `specMonthLength`).  Concretely (second
conjunct): February 29 passes for 2000 and 2024 and errors for 1900 and
2023, and February 30 errors for 2024.  Third conjunct: February 30
errors for EVERY 4-digit year — for any year text `py` parsing to `y`,
the post-split validator on groups `02`/`30`/`py` yields the
day-of-month message for `y`, whatever the current year. -/
theorem C4_day_of_month_leap :
    (∀ (m d y : Int), 1 ≤ m → m ≤ 12 →
        MaskerValidator.dayOfMonthCheck m d y =
          (if d > specMonthLength m y then some (MaskerValidator.dayMsgStr m d y)
           else none)) ∧
    (MaskerValidator.validateDate ⟨2026, 20000⟩ (anyYearDate "02/29/2000") = none ∧
     MaskerValidator.validateDate ⟨2026, 20000⟩ (anyYearDate "02/29/2024") = none ∧
     MaskerValidator.validateDate ⟨2026, 20000⟩ (anyYearDate "02/29/1900") =
       some (MaskerValidator.dayMsgStr 2 29 1900) ∧
     MaskerValidator.validateDate ⟨2026, 20000⟩ (anyYearDate "02/29/2023") =
       some (MaskerValidator.dayMsgStr 2 29 2023) ∧
     MaskerValidator.validateDate ⟨2026, 20000⟩ (anyYearDate "02/30/2024") =
       some (MaskerValidator.dayMsgStr 2 30 2024)) ∧
    (∀ (nowY : Int) (py : String) (y : Int), py.length = 4 →
        parseInt10 py = some y →
        MaskerValidator.validateDateFromParts "date ancient future" "MM/DD/YYYY"
          ["02", "30", py] nowY = some (MaskerValidator.dayMsgStr 2 30 y)) := by
  have hdom : ∀ y : Int, MaskerValidator.dayOfMonthCheck 2 30 y =
      some (MaskerValidator.dayMsgStr 2 30 y) := by
    intro y
    unfold MaskerValidator.dayOfMonthCheck
    by_cases hl : isLeapJS y = true
    · simp [hl]
    · simp [hl]
  refine ⟨?_, ⟨rfl, rfl, rfl, rfl, rfl⟩, ?_⟩
  · intro m d y hm1 hm2
    unfold MaskerValidator.dayOfMonthCheck specMonthLength
    have hleap := isLeapJS_iff_spec y
    interval_cases m <;> try simp
    all_goals
      by_cases hl : isLeapJS y = true
      · simp [hl, hleap.mp hl]
      · have hns : ¬((4 ∣ y ∧ ¬(100 ∣ y)) ∨ 400 ∣ y) := fun hc => hl (hleap.mpr hc)
        simp [hl, hns]
  · intro nowY py y hlen hpy
    have h1 : includes "date ancient future" "year-digits-any" = false := rfl
    have h2 : startsWithStr "MM/DD/YYYY" "Y" = false := rfl
    have h3 : startsWithStr "MM/DD/YYYY" "D" = false := rfl
    have h4 : MaskerValidator.yearRangeCheck "date ancient future" y nowY = none := by
      have hinc : includes "date ancient future" "ancient future" = true := rfl
      simp [MaskerValidator.yearRangeCheck, hinc]
    have hp1 : padStart2 "02" = "02" := rfl
    have hp2 : padStart2 "30" = "30" := rfl
    have hm2 : parseInt10 "02" = some 2 := rfl
    have hd30 : parseInt10 "30" = some 30 := rfl
    simp [MaskerValidator.validateDateFromParts, h1, h2, h3, h4, hlen, hpy, hdom,
      hp1, hp2, hm2, hd30]

/-- Witness for C4: the general day-of-month characterization applied
at June (month 6) day 31 of year 2025 — June has 30 days, so the check
errors — and the every-year February-30 conjunct applied at year text
`1999`. -/
theorem C4_witness :
    MaskerValidator.dayOfMonthCheck 6 31 2025 =
      some (MaskerValidator.dayMsgStr 6 31 2025) ∧
    MaskerValidator.validateDateFromParts "date ancient future" "MM/DD/YYYY"
      ["02", "30", "1999"] 2026 = some (MaskerValidator.dayMsgStr 2 30 1999) := by
  constructor
  · have := C4_day_of_month_leap.1 6 31 2025 (by decide) (by decide)
    rw [this]
    rfl
  · exact C4_day_of_month_leap.2.2 2026 "1999" 1999 rfl rfl

/-- Claim C5: the year-range policy of `validateDate`.  (1) `ancient
future` skips the whole block.  (2) `ancient` forbids years after the
current year (its check is first, so this holds whatever other tokens
the mask carries).  (3) `future` forbids years before the current year
(a past year can never trip the preceding `ancient` check).  (4) With
`2000` as the governing modifier, years below 2000 are forbidden, and
— unless `ignore-max` is present — so are years above the current
year; with `ignore-max` every year from 2000 on passes.  (5) The same
for `1900`.  (6) When none of these modifiers applies and
`year-digits-any` is absent, any year before the current year is an
error and later years pass; the mask is unconstrained with respect to
`ignore-max` here, so that flag has no effect on the default policy.
(7) End to end: a plain `date` field holding `01/01/2020` in 2026 gets
the default forward-only message. -/
theorem C5_year_range_policy :
    (∀ (mask : String) (y nowY : Int), includes mask "ancient future" = true →
        MaskerValidator.yearRangeCheck mask y nowY = none) ∧
    (∀ (mask : String) (y nowY : Int), includes mask "ancient future" = false →
        includes mask "ancient" = true → y > nowY →
        MaskerValidator.yearRangeCheck mask y nowY =
          some "Year cannot be in the future.") ∧
    (∀ (mask : String) (y nowY : Int), includes mask "ancient future" = false →
        includes mask "future" = true → y < nowY →
        MaskerValidator.yearRangeCheck mask y nowY =
          some "Year cannot be in the past.") ∧
    (∀ (mask : String) (y nowY : Int), includes mask "ancient future" = false →
        includes mask "ancient" = false → includes mask "future" = false →
        includes mask "2000" = true →
        (y < 2000 →
          MaskerValidator.yearRangeCheck mask y nowY =
            some "Year cannot be before 2000.") ∧
        (includes mask "ignore-max" = false → 2000 ≤ y → y > nowY →
          MaskerValidator.yearRangeCheck mask y nowY =
            some s!"Year must be between 2000 and {nowY}.") ∧
        (includes mask "ignore-max" = true → includes mask "1900" = false →
          2000 ≤ y →
          MaskerValidator.yearRangeCheck mask y nowY = none)) ∧
    (∀ (mask : String) (y nowY : Int), includes mask "ancient future" = false →
        includes mask "ancient" = false → includes mask "future" = false →
        includes mask "2000" = false → includes mask "1900" = true →
        (y < 1900 →
          MaskerValidator.yearRangeCheck mask y nowY =
            some "Year cannot be before 1900.") ∧
        (includes mask "ignore-max" = false → 1900 ≤ y → y > nowY →
          MaskerValidator.yearRangeCheck mask y nowY =
            some s!"Year must be between 1900 and {nowY}.") ∧
        (includes mask "ignore-max" = true → 1900 ≤ y →
          MaskerValidator.yearRangeCheck mask y nowY = none)) ∧
    (∀ (mask : String) (y nowY : Int), includes mask "ancient future" = false →
        includes mask "ancient" = false → includes mask "future" = false →
        includes mask "1900" = false → includes mask "2000" = false →
        includes mask "year-digits-any" = false →
        MaskerValidator.yearRangeCheck mask y nowY =
          (if y < nowY then some s!"Year cannot be before {nowY}." else none)) ∧
    (MaskerValidator.validateDate ⟨2026, 20000⟩ pastField =
        some "Year cannot be before 2026.") := by
  refine ⟨?_, ?_, ?_, ?_, ?_, ?_, ?_⟩
  · intro mask y nowY haf
    simp [MaskerValidator.yearRangeCheck, haf]
  · intro mask y nowY haf ha hy
    simp [MaskerValidator.yearRangeCheck, haf, ha, hy]
  · intro mask y nowY haf hf hy
    have hna : ¬(y > nowY) := by omega
    simp [MaskerValidator.yearRangeCheck, haf, hf, hy, hna]
  · intro mask y nowY haf ha hf h2k
    refine ⟨?_, ?_, ?_⟩
    · intro hy
      simp [MaskerValidator.yearRangeCheck, haf, ha, hf, h2k, hy]
    · intro him hge hgt
      have hn : ¬(y < 2000) := by omega
      simp [MaskerValidator.yearRangeCheck, haf, ha, hf, h2k, him, hn, hgt]
    · intro him h19 hge
      have hn : ¬(y < 2000) := by omega
      have hn9 : ¬(y < 1900) := by omega
      simp [MaskerValidator.yearRangeCheck, haf, ha, hf, h2k, him, h19, hn, hn9]
  · intro mask y nowY haf ha hf h2k h19
    refine ⟨?_, ?_, ?_⟩
    · intro hy
      simp [MaskerValidator.yearRangeCheck, haf, ha, hf, h2k, h19, hy]
    · intro him hge hgt
      have hn : ¬(y < 1900) := by omega
      simp [MaskerValidator.yearRangeCheck, haf, ha, hf, h2k, h19, him, hn, hgt]
    · intro him hge
      have hn : ¬(y < 1900) := by omega
      simp [MaskerValidator.yearRangeCheck, haf, ha, hf, h2k, h19, him, hn]
  · intro mask y nowY haf ha hf h19 h2k hyd
    by_cases hy : y < nowY
    · have hna : ¬(y > nowY) := by omega
      simp [MaskerValidator.yearRangeCheck, haf, ha, hf, h19, h2k, hyd, hy, hna]
    · simp [MaskerValidator.yearRangeCheck, haf, ha, hf, h19, h2k, hyd, hy]
  · rfl

/-- Witness for C5, applying the policy theorem at concrete masks and
years (current year 2026): `ancient future` skips year 1500; `ancient`
rejects 2030; `future` rejects 2020; `2000` bounds 2030 above unless
`ignore-max` is present; the default policy rejects 2020. -/
theorem C5_witness :
    MaskerValidator.yearRangeCheck "date ancient future" 1500 2026 = none ∧
    MaskerValidator.yearRangeCheck "date ancient" 2030 2026 =
      some "Year cannot be in the future." ∧
    MaskerValidator.yearRangeCheck "date future" 2020 2026 =
      some "Year cannot be in the past." ∧
    MaskerValidator.yearRangeCheck "date 2000" 2030 2026 =
      some "Year must be between 2000 and 2026." ∧
    MaskerValidator.yearRangeCheck "date 2000 ignore-max" 2030 2026 = none ∧
    MaskerValidator.yearRangeCheck "date" 2020 2026 =
      some "Year cannot be before 2026." := by
  refine ⟨?_, ?_, ?_, ?_, ?_, ?_⟩
  · exact C5_year_range_policy.1 "date ancient future" 1500 2026 (by decide)
  · exact C5_year_range_policy.2.1 "date ancient" 2030 2026 (by decide) (by decide)
      (by decide)
  · exact C5_year_range_policy.2.2.1 "date future" 2020 2026 (by decide) (by decide)
      (by decide)
  · have := (C5_year_range_policy.2.2.2.1 "date 2000" 2030 2026 (by decide)
      (by decide) (by decide) (by decide)).2.1 (by decide) (by decide) (by decide)
    rw [this]
    rfl
  · exact (C5_year_range_policy.2.2.2.1 "date 2000 ignore-max" 2030 2026 (by decide)
      (by decide) (by decide) (by decide)).2.2 (by decide) (by decide) (by decide)
  · have := C5_year_range_policy.2.2.2.2.2.1 "date" 2020 2026 (by decide) (by decide)
      (by decide) (by decide) (by decide) (by decide)
    rw [this]
    rfl

/-- Claim C6, as stated, is false on the code: `validateDate`'s ISO
exemption is the anchored, hyphen-only regex `/^\d{4}-\d{2}-\d{2}$/`,
not a leading hyphen-or-slash pattern.  The value `2026/01/15` begins
with a 4-digit year, 2-digit month and 2-digit day separated by slashes
(the permissive leading pattern accepts it, first conjunct), yet under
the default `MDY` declared format `validateDate` produces the
date-format error `Year must be 4 digits.` (second conjunct), because
the slash form falls through to normal splitting, which reads `15` as
the year.  A trailing suffix also defeats the exemption: the strict
test rejects `2026-01-15T12:00:00Z` (third conjunct) and `validateDate`
errors on it (fourth conjunct). -/
theorem C6_counterexample :
    isoLead (jsTrim isoSlashField.value) = some (2026, 1, 15) ∧
    MaskerValidator.validateDate ⟨2026, 20000⟩ isoSlashField =
      some "Year must be 4 digits." ∧
    isoStrict isoSuffixField.value = false ∧
    MaskerValidator.validateDate ⟨2026, 20000⟩ isoSuffixField =
      some "Date is not valid." := by
  exact ⟨rfl, rfl, rfl, rfl⟩

/-- Claim C6 (amended): `validateDate` unconditionally accepts only an
exact strict ISO value — a full-string, hyphen-separated
`\d{4}-\d{2}-\d{2}` match — regardless of declared format code and
before any max-days-out or range policy (first conjunct).  The date
parser `#toDate`, by contrast, accepts any value whose trimmed text
merely BEGINS with the 4-2-2 pattern separated by hyphen or slash,
whenever month ∈ [1,12] and day ∈ [1,31], regardless of declared
format (second conjunct, with the parsed day number as result). -/
theorem C6_amended_iso :
    (∀ (ck : MaskerValidator.Clock) (el : Field), isoStrict el.value = true →
        MaskerValidator.validateDate ck el = none) ∧
    (∀ (el : Field) (y m d : Nat),
        isoLead (jsTrim el.value) = some (y, m, d) →
        1 ≤ m → m ≤ 12 → 1 ≤ d → d ≤ 31 →
        MaskerValidator.toDate (some el) = some (jsDayNumber y m d)) := by
  constructor
  · intro ck el h
    simp only [MaskerValidator.validateDate]
    split_ifs <;> simp_all
  · intro el y m d h hm1 hm2 hd1 hd2
    have hne : el.value ≠ "" := by
      intro hv
      rw [hv, jsTrim_empty] at h
      exact Option.noConfusion h
    simp only [MaskerValidator.toDate]
    rw [if_neg hne, h]
    have hcond : (decide (1 ≤ m) && decide (m ≤ 12) && decide (1 ≤ d) &&
        decide (d ≤ 31)) = true := by
      simp [hm1, hm2, hd1, hd2]
    simp [hcond]

/-- Witness for C6 (amended): the strict value `2026-01-15` passes
`validateDate` untouched, and the parser reads the suffixed
`2026-01-15T12:00:00Z` as 15 January 2026. -/
theorem C6_amended_witness :
    MaskerValidator.validateDate ⟨2026, 20000⟩ isoStrictField = none ∧
    MaskerValidator.toDate (some isoSuffixField) = some (jsDayNumber 2026 1 15) := by
  constructor
  · exact C6_amended_iso.1 ⟨2026, 20000⟩ isoStrictField (by decide)
  · exact C6_amended_iso.2 isoSuffixField 2026 1 15 (by decide)
      (by decide) (by decide) (by decide) (by decide)

/-- Claim C8: `validateRequired` returns an error message exactly when
the field counts as empty — a non-select field whose value equals its
own placeholder text; by default a value that is absent or
whitespace-only; under the `white-space-okay` relaxation only a truly
empty value.  The message is always the field's `data-errMsg` or the
generic required message. -/
theorem C8_validateRequired_empty_iff (el : Field) :
    MaskerValidator.validateRequired el =
      (if (el.isSelect = false ∧ el.value = el.placeholder) ∨
          (if includes el.maskerAttr "white-space-okay" then el.value = ""
           else jsTrim el.value = "")
       then some (jsOrStr el.dataErrMsg "This field is required.")
       else none) := by
  unfold MaskerValidator.validateRequired
  by_cases hsel : el.isSelect <;>
    by_cases hws : includes el.maskerAttr "white-space-okay" <;>
      by_cases hv : el.value = "" <;>
        simp_all [str_length_zero_iff, jsTrim_empty] <;>
          by_cases hph : el.value = el.placeholder <;>
            by_cases ht : jsTrim el.value = "" <;>
              simp_all [str_length_zero_iff, jsTrim_empty]

end MaskerJS
